import Mathlib

/-!
Verification of the pyker user-space installer (`install.py`).

The installer is a straight-line Python script.  We embed it shallowly:
every observable action (a printed line, a subprocess invocation, a
directory creation, a file copy, a chmod, a startup-file read or append)
is recorded as an `Event`; the filesystem state the script manipulates
(existing directories, the `~/.zshrc` contents, installed files) is an
explicit `FS` record; the ambient world the script consults (effective
uid, interpreter version, importability of psutil, `shutil.which`
results, subprocess exit statuses, presence of source files, `PATH`,
and which filesystem operations would fail) is an `Env` record.  Each
Python function becomes a Lean function `Env → St → Res α` where `Res`
distinguishes normal return, `sys.exit(code)`, and an uncaught Python
exception (identified by its class name).  Exceptions and `SystemExit`
propagate through callers exactly as in Python, via `Res.bind`.

Colours (`Colors.*`, the ANSI escapes around every message) are pure
presentation and are dropped: `print_colored` records only the message
text.
-/

namespace PykerInstall

/-- One observable action of the installer, in program order. -/
inductive Event where
  | print (msg : String)
  | subproc (cmd : List String)
  | mkdirCall (path : String)
  | copyFile (src dst : String)
  | chmodFile (path : String) (mode : Nat)
  | readStartup (path : String)
  | appendStartup (path : String)
deriving Repr, DecidableEq

/-- The filesystem state the script can observe and mutate: the set of
directories that exist, the contents of `~/.zshrc` (`none` when the file
does not exist), and the files the installer has written. -/
structure FS where
  dirs : List String
  zshrc : Option (List Char)
  files : List String
deriving Repr, DecidableEq

/-- Program state threaded through the script: the filesystem plus the
trace of events so far. -/
structure St where
  fs : FS
  evs : List Event
deriving Repr, DecidableEq

/-- Outcome of running a piece of the script: normal return with a value,
`sys.exit code`, or an uncaught Python exception (by class name). -/
inductive Res (α : Type) where
  | ok (a : α) (s : St)
  | exited (code : Nat) (s : St)
  | raised (exc : String) (s : St)
deriving Repr, DecidableEq

/-- The ambient world read by the script.  `which c` models
`shutil.which(c) is not None`; `runExit cmd` the exit status the command
would have if spawned; the `*Fails` fields select which filesystem
operations would raise (an operation on an already-existing directory
never raises, matching `mkdir(exist_ok=True)`). -/
structure Env where
  euid : Nat
  pyMajor : Nat
  pyMinor : Nat
  psutilImportable : Bool
  which : String → Bool
  runExit : List String → Nat
  ohMyZshExists : Bool
  payloadExists : Bool
  bashCompSrcExists : Bool
  zshCompSrcExists : Bool
  pathEnv : List Char
  mkdirFails : String → Bool
  copyFails : String → Bool
  readFails : String → Bool
  writeFails : String → Bool

/-- Append an event to the trace. -/
def addEv (e : Event) (s : St) : St :=
  { s with evs := s.evs ++ [e] }

/-- Model of `print_colored(message, color)` (install.py lines 23-25):
prints the message; the colour wrapping is presentation only. -/
def print_colored (msg : String) (s : St) : St :=
  addEv (.print msg) s

/-- Sequencing: exceptions and `SystemExit` propagate to the caller. -/
def Res.bind {α β : Type} (r : Res α) (f : α → St → Res β) : Res β :=
  match r with
  | .ok a s => f a s
  | .exited c s => .exited c s
  | .raised e s => .raised e s

/-- The event trace of an outcome. -/
def Res.events {α : Type} : Res α → List Event
  | .ok _ s => s.evs
  | .exited _ s => s.evs
  | .raised _ s => s.evs

/-- The filesystem of an outcome. -/
def Res.fsOf {α : Type} : Res α → FS
  | .ok _ s => s.fs
  | .exited _ s => s.fs
  | .raised _ s => s.fs

/-- The exit code of an outcome, when it ended via `sys.exit`. -/
def Res.exitCode {α : Type} : Res α → Option Nat
  | .exited c _ => some c
  | .ok _ _ => none
  | .raised _ _ => none

/-- The exception class of an outcome, when it ended in an uncaught
exception. -/
def Res.excName {α : Type} : Res α → Option String
  | .raised e _ => some e
  | .ok _ _ => none
  | .exited _ _ => none

/-- Outcome of a call to `subprocess.run`.  CPython validates keyword
arguments before spawning: `capture_output=True` combined with an
explicit `stdout`/`stderr` argument raises
`ValueError("stdout and stderr arguments may not be used with capture_output.")`
and no process is started.  Otherwise the process runs and yields an
exit status. -/
inductive RunOut where
  | valueError
  | completed (code : Nat)
deriving Repr, DecidableEq

/-- Model of `subprocess.run(cmd, check=True, capture_output=co, stderr=...)`:
`stderrArg` records whether an explicit `stderr=` keyword was passed. -/
def subprocessRun (env : Env) (cmd : List String) (captureOutput stderrArg : Bool) : RunOut :=
  if captureOutput && stderrArg then .valueError
  else .completed (env.runExit cmd)

/-- Model of `check_not_root` (lines 27-32). -/
def check_not_root (env : Env) (s : St) : Res Unit :=
  if env.euid = 0 then
    .exited 1 (print_colored "Pyker works in user space and doesn\x27t require sudo"
      (print_colored "Error: This script should NOT be run as root" s))
  else .ok () s

/-- The comparison `sys.version_info < (3, 6)` on (major, minor). -/
def versionBelow36 (major minor : Nat) : Bool :=
  major < 3 || (major == 3 && minor < 6)

/-- Model of `check_python` (lines 34-39). -/
def check_python (env : Env) (s : St) : Res Unit :=
  if versionBelow36 env.pyMajor env.pyMinor then
    .exited 1 (print_colored "Error: Python 3.6 or higher is required" s)
  else .ok () (print_colored "✓ Python 3 is available" s)

/-- Stand-in for `sys.executable`. -/
def sysExecutable : String := "python3"

/-- The `pip install --user` command of lines 55-57. -/
def pipUserCmd : List String :=
  [sysExecutable, "-m", "pip", "install", "--user", "psutil"]

/-- The static system-package-manager table of lines 64-69. -/
def install_methods : List (List String × String) :=
  [(["apt", "install", "-y", "python3-psutil"], "apt (Ubuntu/Debian)"),
   (["yum", "install", "-y", "python3-psutil"], "yum (CentOS/RHEL)"),
   (["dnf", "install", "-y", "python3-psutil"], "dnf (Fedora)"),
   (["pacman", "-S", "--noconfirm", "python-psutil"], "pacman (Arch Linux)")]

/-- The manual remediation command lines printed on exhaustion
(lines 95-100), verbatim and in source order. -/
def remediationCmds : List String :=
  ["  sudo apt install python3-psutil     # Ubuntu/Debian",
   "  sudo yum install python3-psutil     # CentOS/RHEL",
   "  sudo dnf install python3-psutil     # Fedora",
   "  sudo pacman -S python-psutil        # Arch Linux",
   "  pipx install psutil                 # Using pipx",
   "  python3 -m venv venv && venv/bin/pip install psutil  # Virtual env"]

/-- The exhaustion tail of `install_psutil` (lines 92-101): print the
two header lines, the remediation commands, and `sys.exit(1)`. -/
def psutilExhausted (s : St) : Res Unit :=
  .exited 1 (remediationCmds.foldl (fun t m => print_colored m t)
    (print_colored "Please install psutil manually using one of these methods:"
      (print_colored "Could not install psutil automatically" s)))

/-- The pipx attempt of `install_psutil` (lines 81-90): guarded by
`shutil.which("pipx")`; `subprocess.run(..., check=True, capture_output=True)`;
`CalledProcessError` falls through to the exhaustion tail. -/
def psutilTryPipx (env : Env) (s : St) : Res Unit :=
  if env.which "pipx" then
    let s := print_colored "Trying to install via pipx..." s
    match subprocessRun env ["pipx", "install", "psutil", "--include-deps"] true false with
    | .valueError => .raised "ValueError" s
    | .completed code =>
      let s := addEv (.subproc ["pipx", "install", "psutil", "--include-deps"]) s
      if code = 0 then .ok () (print_colored "✓ psutil installed via pipx" s)
      else psutilExhausted s
  else psutilExhausted s

/-- The `for cmd, name in install_methods` loop of `install_psutil`
(lines 71-79): a manager whose binary is absent is skipped silently; a
present manager is attempted with `sudo` prepended,
`check=True, capture_output=True`; on `CalledProcessError` the loop
continues; on success the function returns.  When the list is
exhausted control reaches the pipx attempt. -/
def psutilTryManagers (env : Env) : List (List String × String) → St → Res Unit
  | [], s => psutilTryPipx env s
  | (cmd, name) :: rest, s =>
    if env.which (cmd.headD "") then
      let s := print_colored ("Trying to install via " ++ name ++ "...") s
      match subprocessRun env ("sudo" :: cmd) true false with
      | .valueError => .raised "ValueError" s
      | .completed code =>
        let s := addEv (.subproc ("sudo" :: cmd)) s
        if code = 0 then .ok () (print_colored ("✓ psutil installed via " ++ name) s)
        else psutilTryManagers env rest s
    else psutilTryManagers env rest s

/-- Model of `install_psutil` (lines 41-101).  The import probe is
`env.psutilImportable`.  The pip attempt (lines 54-61) passes BOTH
`capture_output=True` AND `stderr=subprocess.DEVNULL` to
`subprocess.run`, which therefore raises `ValueError` before spawning
anything; the surrounding `except subprocess.CalledProcessError` does
not catch it, so the exception escapes `install_psutil`. -/
def install_psutil (env : Env) (s : St) : Res Unit :=
  let s := print_colored "Installing psutil dependency..." s
  if env.psutilImportable then
    .ok () (print_colored "✓ psutil is already installed" s)
  else
    match subprocessRun env pipUserCmd true true with
    | .valueError => .raised "ValueError" s
    | .completed code =>
      let s := addEv (.subproc pipUserCmd) s
      if code = 0 then .ok () (print_colored "✓ psutil installed via pip --user" s)
      else psutilTryManagers env install_methods s

/-- Path `~/.local/bin` (`Path.home() / ".local" / "bin"`). -/
def localBinDir : String := "~/.local/bin"

/-- Installed binary `~/.local/bin/pyker`. -/
def pykerTarget : String := "~/.local/bin/pyker"

/-- Data directory `~/.pyker`. -/
def pykerDataDir : String := "~/.pyker"

/-- Log directory `~/.pyker/logs`. -/
def pykerLogsDir : String := "~/.pyker/logs"

/-- Bash completion directory `~/.local/share/bash-completion/completions`. -/
def bashCompDir : String := "~/.local/share/bash-completion/completions"

/-- The oh-my-zsh marker directory `~/.oh-my-zsh`. -/
def ohMyZshDir : String := "~/.oh-my-zsh"

/-- Framework completion directory `~/.oh-my-zsh/completions`. -/
def omzCompDir : String := "~/.oh-my-zsh/completions"

/-- Generic zsh completion directory `~/.local/share/zsh/site-functions`. -/
def zshSiteFnDir : String := "~/.local/share/zsh/site-functions"

/-- The zsh startup file `~/.zshrc`. -/
def zshrcPath : String := "~/.zshrc"

/-- Insert a string into a list if not already present (set-like update
used for the directory set and the installed-file set). -/
def insertUniq (ds : List String) (p : String) : List String :=
  if p ∈ ds then ds else p :: ds

/-- Model of `path.mkdir(parents=True, exist_ok=True)`.  The call is
recorded as an event.  If the directory already exists the call is a
no-op success (that is what `exist_ok=True` means); otherwise it creates
the missing ancestors and the directory itself, unless the environment
makes this creation fail, in which case `OSError` is raised. -/
def mkdirp (env : Env) (ancestors : List String) (p : String) (s : St) : Res Unit :=
  let s := addEv (.mkdirCall p) s
  if p ∈ s.fs.dirs then .ok () s
  else if env.mkdirFails p then .raised "OSError" s
  else .ok () { s with fs := { s.fs with dirs := insertUniq (ancestors.foldl insertUniq s.fs.dirs) p } }

/-- Model of `setup_local_bin` (lines 103-108). -/
def setup_local_bin (env : Env) (s : St) : Res String :=
  (mkdirp env ["~/.local"] localBinDir s).bind fun _ s =>
    .ok localBinDir (print_colored "✓ ~/.local/bin directory ready" s)

/-- Model of `install_pyker` (lines 110-132).  The `pyker.py` presence
check precedes `setup_local_bin`.  The `shutil.copy2` / `os.chmod` pair
sits in a `try` whose `except Exception` prints an error and exits 1;
`env.copyFails "pyker.py"` selects that failure. -/
def install_pyker (env : Env) (s : St) : Res String :=
  let s := print_colored "Installing Pyker..." s
  if !env.payloadExists then
    .exited 1 (print_colored "Please run this script from the pyker directory"
      (print_colored "Error: pyker.py not found in current directory" s))
  else
    (setup_local_bin env s).bind fun local_bin s =>
      if env.copyFails "pyker.py" then
        .exited 1 (print_colored "Error copying file" s)
      else
        let s := addEv (.chmodFile pykerTarget 0o755) (addEv (.copyFile "pyker.py" pykerTarget) s)
        let s := { s with fs := { s.fs with files := insertUniq s.fs.files pykerTarget } }
        .ok local_bin (print_colored ("✓ pyker installed to " ++ pykerTarget) s)

/-- Model of `create_pyker_dir` (lines 149-154): one recursive creation
of `~/.pyker/logs` covers `~/.pyker` as well. -/
def create_pyker_dir (env : Env) (s : St) : Res Unit :=
  (mkdirp env [pykerDataDir] pykerLogsDir s).bind fun _ s =>
    .ok () (print_colored "✓ ~/.pyker directory structure created" s)

/-- Python substring containment `needle in hay` on character lists. -/
def isSubOf (needle hay : List Char) : Bool :=
  (List.range (hay.length + 1)).any fun i => needle.isPrefixOf (hay.drop i)

/-- Model of `check_path` (lines 134-147): substring test of the binary
directory against the `PATH` environment variable. -/
def check_path (env : Env) (local_bin : String) (s : St) : Res Bool :=
  if isSubOf local_bin.data env.pathEnv then
    .ok true (print_colored "✓ ~/.local/bin is already in PATH" s)
  else
    .ok false (print_colored "Then restart your terminal or run: source ~/.bashrc"
      (print_colored "export PATH=\"$HOME/.local/bin:$PATH\""
        (print_colored "Add this line to your ~/.bashrc or ~/.zshrc:"
          (print_colored "Warning: ~/.local/bin is not in PATH" s))))

/-- The f-string `f"fpath=({zsh_comp_dir} $fpath)"` of line 190. -/
def fpathLine (dir : List Char) : List Char :=
  "fpath=(".data ++ dir ++ " $fpath)".data

/-- The startup-file registration step of `setup_completions`
(lines 189-196): if `~/.zshrc` exists, read it, and only when the
completion directory string occurs nowhere in the contents append
`"\n" + fpath_line + "\n"` and print a notice.  A missing `~/.zshrc` is
left untouched. -/
def zshrcRegisterStep (env : Env) (zsh_comp_dir : String) (s : St) : Res Unit :=
  match s.fs.zshrc with
  | none => .ok () s
  | some content =>
    if env.readFails zshrcPath then .raised "OSError" s
    else
      let s := addEv (.readStartup zshrcPath) s
      if isSubOf zsh_comp_dir.data content then .ok () s
      else if env.writeFails zshrcPath then .raised "OSError" s
      else
        let s := addEv (.appendStartup zshrcPath) s
        let s := { s with fs := { s.fs with
          zshrc := some (content ++ '\n' :: (fpathLine zsh_comp_dir.data ++ ['\n'])) } }
        .ok () (print_colored "Added completion directory to ~/.zshrc" s)

/-- The zsh half of `setup_completions` (lines 171-198): guarded by
`shutil.which("zsh")`; the target directory depends on the oh-my-zsh
marker directory; the fpath registration runs only for a copied
completion outside oh-my-zsh.  When zsh is absent nothing at all
happens. -/
def zshCompletionPart (env : Env) (s : St) : Res Unit :=
  if env.which "zsh" then
    let zsh_comp_dir := if env.ohMyZshExists then omzCompDir else zshSiteFnDir
    let ancs := if env.ohMyZshExists then [ohMyZshDir]
      else ["~/.local", "~/.local/share", "~/.local/share/zsh"]
    (mkdirp env ancs zsh_comp_dir s).bind fun _ s =>
      if env.zshCompSrcExists then
        if env.copyFails "completions/_pyker" then .raised "Error" s
        else
          let s := addEv (.copyFile "completions/_pyker" (zsh_comp_dir ++ "/_pyker")) s
          let s := { s with fs := { s.fs with
            files := insertUniq s.fs.files (zsh_comp_dir ++ "/_pyker") } }
          let s := print_colored "✓ Zsh completion installed" s
          if env.ohMyZshExists then .ok () s
          else zshrcRegisterStep env zsh_comp_dir s
      else .ok () (print_colored "⚠ Zsh completion file not found (optional)" s)
  else .ok () s

/-- Model of `setup_completions` (lines 156-198).  The bash completion
directory is created unconditionally; the bash source file is copied
only if present; then the zsh half runs.  No exception handling exists
anywhere in this function. -/
def setup_completions (env : Env) (s : St) : Res Unit :=
  let s := print_colored "Setting up shell completions..." s
  (mkdirp env ["~/.local", "~/.local/share", "~/.local/share/bash-completion"] bashCompDir s).bind
    fun _ s =>
    (if env.bashCompSrcExists then
       if env.copyFails "completions/pyker-completion.bash" then
         (.raised "Error" s : Res Unit)
       else
         let s := addEv (.copyFile "completions/pyker-completion.bash"
           "~/.local/share/bash-completion/completions/pyker") s
         let s := { s with fs := { s.fs with
           files := insertUniq s.fs.files "~/.local/share/bash-completion/completions/pyker" } }
         .ok () (print_colored "✓ Bash completion installed" s)
     else (.ok () (print_colored "⚠ Bash completion file not found (optional)" s) : Res Unit)).bind
    fun _ s => zshCompletionPart env s

/-- The usage/summary lines printed by `main` (lines 212-224). -/
def summaryPrints (s : St) : St :=
  print_colored "  pyker start mybot /path/to/bot.py"
    (print_colored "Example:"
      (print_colored ""
        (print_colored "  pyker --help                # Show help"
          (print_colored "  pyker info mybot            # Process information"
            (print_colored "  pyker logs mybot            # Show logs"
              (print_colored "  pyker list                   # List all processes"
                (print_colored "  pyker start mybot script.py  # Start a process"
                  (print_colored "Usage:"
                    (print_colored ""
                      (print_colored "🎉 Installation completed!"
                        (print_colored "" s)))))))))))

/-- The separator `"=" * 50` of line 202. -/
def sepLine : String := String.mk (List.replicate 50 '=')

/-- Model of `main` (lines 200-228): the banner, then the step sequence
`check_not_root`, `check_python`, `install_psutil`, `install_pyker`,
`create_pyker_dir`, `setup_completions`, `check_path`, then the summary
and, when the binary directory is off `PATH`, a final reminder. -/
def main (env : Env) (s : St) : Res Unit :=
  let s := print_colored sepLine
    (print_colored "Pyker - Simple Python Process Manager" s)
  (check_not_root env s).bind fun _ s =>
  (check_python env s).bind fun _ s =>
  (install_psutil env s).bind fun _ s =>
  (install_pyker env s).bind fun local_bin s =>
  (create_pyker_dir env s).bind fun _ s =>
  (setup_completions env s).bind fun _ s =>
  (check_path env local_bin s).bind fun path_ok s =>
  let s := summaryPrints s
  if path_ok then .ok () s
  else .ok () (print_colored "Important: Restart your terminal or update PATH manually"
    (print_colored "" s))

/-- An empty starting state: no directories recorded, no `~/.zshrc`, no
files, empty trace. -/
def initSt : St := ⟨⟨[], none, []⟩, []⟩

/-- A benign concrete environment: ordinary user, Python 3.11, psutil
already importable, nothing on the search path, payload present, no
completion sources, binary directory on `PATH`, no failing operations. -/
def baseEnv : Env :=
  { euid := 1000
    pyMajor := 3
    pyMinor := 11
    psutilImportable := true
    which := fun _ => false
    runExit := fun _ => 0
    ohMyZshExists := false
    payloadExists := true
    bashCompSrcExists := false
    zshCompSrcExists := false
    pathEnv := "~/.local/bin".data
    mkdirFails := fun _ => false
    copyFails := fun _ => false
    readFails := fun _ => false
    writeFails := fun _ => false }

/-- The environment of a run in which psutil is not importable and no
external tool whatsoever is available. -/
def noPsutilEnv : Env := { baseEnv with psutilImportable := false }

/-- The environment of a run missing the payload file. -/
def noPayloadEnv : Env := { baseEnv with payloadExists := false }

/-- An environment in which creating the bash completion directory
fails (for example, `~/.local/share` is not writable). -/
def bashMkdirFailEnv : Env := { baseEnv with mkdirFails := fun p => p == bashCompDir }

/-- A state in which the binary directory and the log directory already
exist (an already-provisioned target). -/
def provSt : St := ⟨⟨[pykerLogsDir, pykerDataDir, localBinDir, "~/.local"], none, []⟩, []⟩

/-- The state after `setup_completions` in the benign environment: the
bash completion directory chain exists, nothing else happened. -/
def compSt : St :=
  ⟨⟨["~/.local/share/bash-completion/completions", "~/.local/share/bash-completion",
     "~/.local/share", "~/.local"], none, []⟩,
   [.print "Setting up shell completions...", .mkdirCall bashCompDir,
    .print "⚠ Bash completion file not found (optional)"]⟩

/-- Inversion for sequencing: a `bind` that returns normally came from a
normal return of its first component. -/
theorem bind_eq_ok {α β : Type} {r : Res α} {f : α → St → Res β} {b : β} {s' : St}
    (h : r.bind f = .ok b s') : ∃ a s₁, r = .ok a s₁ ∧ f a s₁ = .ok b s' := by
  cases r with
  | ok a s => exact ⟨a, s, rfl, h⟩
  | exited c s => simp [Res.bind] at h
  | raised e s => simp [Res.bind] at h

/-- Membership after a set-like insert. -/
theorem mem_insertUniq_iff {ds : List String} {p q : String} :
    q ∈ insertUniq ds p ↔ q = p ∨ q ∈ ds := by
  unfold insertUniq
  by_cases h : p ∈ ds
  · simp only [if_pos h]
    exact ⟨Or.inr, fun hc => hc.elim (fun e => e ▸ h) id⟩
  · simp [if_neg h]

/-- Membership after folding set-like inserts over a list. -/
theorem mem_foldl_insertUniq_iff (l : List String) (ds : List String) (q : String) :
    q ∈ l.foldl insertUniq ds ↔ q ∈ ds ∨ q ∈ l := by
  induction l generalizing ds with
  | nil => simp
  | cons a as ih =>
    simp only [List.foldl_cons, ih, mem_insertUniq_iff, List.mem_cons]
    tauto

/-- A list is a `isPrefixOf` of itself followed by anything. -/
theorem isPrefixOf_append_self (l t : List Char) : l.isPrefixOf (l ++ t) = true := by
  induction l with
  | nil => simp [List.isPrefixOf]
  | cons a as ih => simp [List.isPrefixOf, ih]

/-- A list that occurs contiguously in the middle of another is found by
the substring test. -/
theorem isSubOf_middle (a d b : List Char) : isSubOf d (a ++ (d ++ b)) = true := by
  unfold isSubOf
  rw [List.any_eq_true]
  refine ⟨a.length, List.mem_range.mpr ?_, ?_⟩
  · simp only [List.length_append]
    omega
  · rw [List.drop_left]
    exact isPrefixOf_append_self d b

/-- After the registration append, the directory string occurs in the
startup file, so a later run finds it. -/
theorem isSubOf_fpath (c d : List Char) :
    isSubOf d (c ++ '\n' :: (fpathLine d ++ ['\n'])) = true := by
  have h : c ++ '\n' :: (fpathLine d ++ ['\n'])
      = (c ++ '\n' :: "fpath=(".data) ++ (d ++ (" $fpath)".data ++ ['\n'])) := by
    simp [fpathLine]
  rw [h]
  exact isSubOf_middle _ _ _

/-- Recording an event does not change the filesystem. -/
@[simp] theorem addEv_fs (e : Event) (s : St) : (addEv e s).fs = s.fs := rfl

/-- Recording an event appends it to the trace. -/
@[simp] theorem addEv_evs (e : Event) (s : St) : (addEv e s).evs = s.evs ++ [e] := rfl

/-- Printing does not change the filesystem. -/
@[simp] theorem print_colored_fs (m : String) (s : St) : (print_colored m s).fs = s.fs := rfl

/-- Printing appends one print event to the trace. -/
@[simp] theorem print_colored_evs (m : String) (s : St) :
    (print_colored m s).evs = s.evs ++ [.print m] := rfl

/-- Behaviour of the registration step when the startup file is absent:
nothing happens. -/
theorem zshrcRegisterStep_none (env : Env) (dir : String) (t : St)
    (ht : t.fs.zshrc = none) :
    zshrcRegisterStep env dir t = .ok () t := by
  simp [zshrcRegisterStep, ht]

/-- Behaviour of the registration step when the directory string is
already present: the file is read and left unchanged. -/
theorem zshrcRegisterStep_present (env : Env) (dir : String) (t : St) (c : List Char)
    (hr : env.readFails zshrcPath = false)
    (ht : t.fs.zshrc = some c) (hsub : isSubOf dir.data c = true) :
    zshrcRegisterStep env dir t = .ok () (addEv (.readStartup zshrcPath) t) := by
  simp [zshrcRegisterStep, ht, hr, hsub]

/-- Behaviour of the registration step when the directory string is
absent: the registration line is appended. -/
theorem zshrcRegisterStep_absent (env : Env) (dir : String) (t : St) (c : List Char)
    (hr : env.readFails zshrcPath = false) (hw : env.writeFails zshrcPath = false)
    (ht : t.fs.zshrc = some c) (hsub : isSubOf dir.data c = false) :
    zshrcRegisterStep env dir t = .ok ()
      (print_colored "Added completion directory to ~/.zshrc"
        { addEv (.appendStartup zshrcPath) (addEv (.readStartup zshrcPath) t) with
          fs := { (addEv (.appendStartup zshrcPath) (addEv (.readStartup zshrcPath) t)).fs with
            zshrc := some (c ++ '\n' :: (fpathLine dir.data ++ ['\n'])) } }) := by
  simp [zshrcRegisterStep, ht, hr, hw, hsub]

/-- After a registration append, a later registration run reads the file
and leaves it unchanged. -/
theorem zshrcRegisterStep_after_append (env : Env) (dir : String) (t : St) (c : List Char)
    (hr : env.readFails zshrcPath = false)
    (ht : t.fs.zshrc = some (c ++ '\n' :: (fpathLine dir.data ++ ['\n']))) :
    zshrcRegisterStep env dir t = .ok () (addEv (.readStartup zshrcPath) t) := by
  simp [zshrcRegisterStep, ht, hr, isSubOf_fpath]

/-- A successful `mkdirp` leaves the target directory present, keeps
every previously-present directory, and adds only the target and its
listed ancestors. -/
theorem mkdirp_ok_dirs {env : Env} {anc : List String} {p : String} {s : St} {b : Unit}
    {s' : St} (h : mkdirp env anc p s = .ok b s') :
    p ∈ s'.fs.dirs ∧ (∀ q, q ∈ s.fs.dirs → q ∈ s'.fs.dirs) ∧
      (∀ q, q ∈ s'.fs.dirs → q ∈ s.fs.dirs ∨ q ∈ anc ∨ q = p) := by
  simp only [mkdirp, addEv] at h
  split at h
  · cases h
    refine ⟨by assumption, fun q hq => hq, fun q hq => Or.inl hq⟩
  · split at h
    · simp at h
    · cases h
      refine ⟨?_, fun q hq => ?_, fun q hq => ?_⟩
      · exact mem_insertUniq_iff.mpr (Or.inl rfl)
      · exact mem_insertUniq_iff.mpr (Or.inr ((mem_foldl_insertUniq_iff anc s.fs.dirs q).mpr (Or.inl hq)))
      · rcases mem_insertUniq_iff.mp hq with he | hm
        · exact Or.inr (Or.inr he)
        · rcases (mem_foldl_insertUniq_iff anc s.fs.dirs q).mp hm with h1 | h2
          · exact Or.inl h1
          · exact Or.inr (Or.inl h2)

/-- A successful `mkdirp` only appends events. -/
theorem mkdirp_ok_evs {env : Env} {anc : List String} {p : String} {s : St} {b : Unit}
    {s' : St} (h : mkdirp env anc p s = .ok b s') :
    s'.evs = s.evs ++ [.mkdirCall p] := by
  simp only [mkdirp, addEv] at h
  split at h
  · cases h; rfl
  · split at h
    · simp at h
    · cases h; rfl

/-- A non-root user passes the privilege guard with no output. -/
theorem check_not_root_ok (env : Env) (s : St) (h0 : env.euid ≠ 0) :
    check_not_root env s = .ok () s := by
  simp [check_not_root, h0]

/-- A sufficient interpreter version passes the runtime check. -/
theorem check_python_ok (env : Env) (s : St)
    (hv : versionBelow36 env.pyMajor env.pyMinor = false) :
    check_python env s = .ok () (print_colored "✓ Python 3 is available" s) := by
  simp [check_python, hv]

/-- An importable psutil short-circuits the resolver. -/
theorem install_psutil_already (env : Env) (s : St) (hp : env.psutilImportable = true) :
    install_psutil env s = .ok () (print_colored "✓ psutil is already installed"
      (print_colored "Installing psutil dependency..." s)) := by
  simp [install_psutil, hp]

/-- A binary directory on `PATH` passes the environment check. -/
theorem check_path_in (env : Env) (d : String) (s : St)
    (hpath : isSubOf d.data env.pathEnv = true) :
    check_path env d s = .ok true (print_colored "✓ ~/.local/bin is already in PATH" s) := by
  simp [check_path, hpath]

/-- A `mkdirp` whose creation would not fail returns normally, records
exactly its mkdir call, touches neither the startup file nor the
installed files, and changes the directory set only by adding the
target and its listed ancestors. -/
theorem mkdirp_tr (env : Env) (anc : List String) (p : String) (s : St)
    (hm : env.mkdirFails p = false) :
    ∃ fsX, mkdirp env anc p s = .ok () ⟨fsX, s.evs ++ [.mkdirCall p]⟩ ∧
      fsX.zshrc = s.fs.zshrc ∧ fsX.files = s.fs.files ∧ p ∈ fsX.dirs ∧
      (∀ q, q ∈ s.fs.dirs → q ∈ fsX.dirs) ∧
      (∀ q, q ∈ fsX.dirs → q ∈ s.fs.dirs ∨ q ∈ anc ∨ q = p) := by
  by_cases hmem : p ∈ s.fs.dirs
  · refine ⟨s.fs, ?_, rfl, rfl, hmem, fun q hq => hq, fun q hq => Or.inl hq⟩
    simp [mkdirp, hmem, addEv]
  · refine ⟨{ s.fs with dirs := insertUniq (anc.foldl insertUniq s.fs.dirs) p },
      ?_, rfl, rfl, ?_, ?_, ?_⟩
    · simp [mkdirp, hmem, hm, addEv]
    · exact mem_insertUniq_iff.mpr (Or.inl rfl)
    · intro q hq
      exact mem_insertUniq_iff.mpr
        (Or.inr ((mem_foldl_insertUniq_iff anc s.fs.dirs q).mpr (Or.inl hq)))
    · intro q hq
      rcases mem_insertUniq_iff.mp hq with he | hm2
      · exact Or.inr (Or.inr he)
      · rcases (mem_foldl_insertUniq_iff anc s.fs.dirs q).mp hm2 with h1 | h2
        · exact Or.inl h1
        · exact Or.inr (Or.inl h2)

/-- With the payload present and no failing filesystem operation, the
payload installer succeeds and its trace is the banner, the binary
directory creation, the ready notice, the copy, the chmod, the
installed notice, in that order. -/
theorem install_pyker_tr (env : Env) (s : St)
    (hpay : env.payloadExists = true) (hm : ∀ p, env.mkdirFails p = false)
    (hc : ∀ p, env.copyFails p = false) :
    ∃ fsX, install_pyker env s = .ok localBinDir ⟨fsX,
      s.evs ++ [.print "Installing Pyker...", .mkdirCall localBinDir,
        .print "✓ ~/.local/bin directory ready", .copyFile "pyker.py" pykerTarget,
        .chmodFile pykerTarget 0o755, .print ("✓ pyker installed to " ++ pykerTarget)]⟩ := by
  obtain ⟨fsB, h1, -, -, -, -, -⟩ :=
    mkdirp_tr env ["~/.local"] localBinDir (print_colored "Installing Pyker..." s) (hm _)
  refine ⟨{ fsB with files := insertUniq fsB.files pykerTarget }, ?_⟩
  unfold install_pyker setup_local_bin
  rw [hpay]
  simp only [Bool.not_true, Bool.false_eq_true, if_false]
  rw [h1]
  simp [Res.bind, hc "pyker.py", print_colored, addEv]

/-- With no failing filesystem operation the data/log provisioning
succeeds, recording its mkdir call and its notice. -/
theorem create_pyker_dir_tr (env : Env) (s : St) (hm : ∀ p, env.mkdirFails p = false) :
    ∃ fsX, create_pyker_dir env s = .ok () ⟨fsX,
      s.evs ++ [.mkdirCall pykerLogsDir, .print "✓ ~/.pyker directory structure created"]⟩ := by
  obtain ⟨fsX, h1, -, -, -, -, -⟩ := mkdirp_tr env [pykerDataDir] pykerLogsDir s (hm _)
  refine ⟨fsX, ?_⟩
  unfold create_pyker_dir
  rw [h1]
  simp [Res.bind, print_colored, addEv]

/-- When zsh is absent from the search path the zsh half does nothing. -/
theorem zshCompletionPart_skip (env : Env) (s : St) (hz : env.which "zsh" = false) :
    zshCompletionPart env s = .ok () s := by
  simp [zshCompletionPart, hz]

/-- A successful `mkdirp` leaves the startup file untouched. -/
theorem mkdirp_ok_zshrc {env : Env} {anc : List String} {p : String} {s : St} {b : Unit}
    {s' : St} (h : mkdirp env anc p s = .ok b s') :
    s'.fs.zshrc = s.fs.zshrc := by
  simp only [mkdirp, addEv] at h
  split at h
  · cases h; rfl
  · split at h
    · simp at h
    · cases h; rfl

/-- With no failing filesystem operation the zsh half of the completion
installer returns normally, only ever extending the trace. -/
theorem zshCompletionPart_tr (env : Env) (s : St)
    (hm : ∀ p, env.mkdirFails p = false) (hc : ∀ p, env.copyFails p = false)
    (hr : ∀ p, env.readFails p = false) (hw : ∀ p, env.writeFails p = false) :
    ∃ fsX l, zshCompletionPart env s = .ok () ⟨fsX, s.evs ++ l⟩ := by
  rcases hz : env.which "zsh" with _ | _
  · exact ⟨s.fs, [], by simp [zshCompletionPart, hz]⟩
  · rcases ho : env.ohMyZshExists with _ | _
    · obtain ⟨fsZ, h1, z1, -, -, -, -⟩ :=
        mkdirp_tr env ["~/.local", "~/.local/share", "~/.local/share/zsh"] zshSiteFnDir s (hm _)
      rcases hzf : env.zshCompSrcExists with _ | _
      · refine ⟨fsZ, [.mkdirCall zshSiteFnDir,
          .print "⚠ Zsh completion file not found (optional)"], ?_⟩
        simp only [zshCompletionPart, hz, ho, Bool.false_eq_true, if_false, if_true]
        rw [h1]
        simp [Res.bind, hzf, print_colored, addEv]
      · rcases hzc : fsZ.zshrc with _ | c
        · refine ⟨{ fsZ with files := insertUniq fsZ.files (zshSiteFnDir ++ "/_pyker") },
            [.mkdirCall zshSiteFnDir,
             .copyFile "completions/_pyker" (zshSiteFnDir ++ "/_pyker"),
             .print "✓ Zsh completion installed"], ?_⟩
          simp only [zshCompletionPart, hz, ho, Bool.false_eq_true, if_false, if_true]
          rw [h1]
          simp only [Res.bind, hzf, hc "completions/_pyker", Bool.false_eq_true, if_false,
            if_true]
          rw [zshrcRegisterStep_none env zshSiteFnDir]
          · simp [print_colored, addEv]
          · simp [print_colored, addEv, hzc]
        · rcases hsub : isSubOf zshSiteFnDir.data c with _ | _
          · refine ⟨{ fsZ with
              zshrc := some (c ++ '\n' :: (fpathLine zshSiteFnDir.data ++ ['\n'])),
              files := insertUniq fsZ.files (zshSiteFnDir ++ "/_pyker") },
              [.mkdirCall zshSiteFnDir,
               .copyFile "completions/_pyker" (zshSiteFnDir ++ "/_pyker"),
               .print "✓ Zsh completion installed", .readStartup zshrcPath,
               .appendStartup zshrcPath,
               .print "Added completion directory to ~/.zshrc"], ?_⟩
            simp only [zshCompletionPart, hz, ho, Bool.false_eq_true, if_false, if_true]
            rw [h1]
            simp only [Res.bind, hzf, hc "completions/_pyker", Bool.false_eq_true, if_false,
              if_true]
            rw [zshrcRegisterStep_absent env zshSiteFnDir _ c (hr _) (hw _)]
            · simp [print_colored, addEv]
            · simp [print_colored, addEv, hzc]
            · exact hsub
          · refine ⟨{ fsZ with files := insertUniq fsZ.files (zshSiteFnDir ++ "/_pyker") },
              [.mkdirCall zshSiteFnDir,
               .copyFile "completions/_pyker" (zshSiteFnDir ++ "/_pyker"),
               .print "✓ Zsh completion installed", .readStartup zshrcPath], ?_⟩
            simp only [zshCompletionPart, hz, ho, Bool.false_eq_true, if_false, if_true]
            rw [h1]
            simp only [Res.bind, hzf, hc "completions/_pyker", Bool.false_eq_true, if_false,
              if_true]
            rw [zshrcRegisterStep_present env zshSiteFnDir _ c (hr _)]
            · simp [print_colored, addEv]
            · simp [print_colored, addEv, hzc]
            · exact hsub
    · obtain ⟨fsZ, h1, z1, -, -, -, -⟩ := mkdirp_tr env [ohMyZshDir] omzCompDir s (hm _)
      rcases hzf : env.zshCompSrcExists with _ | _
      · refine ⟨fsZ, [.mkdirCall omzCompDir,
          .print "⚠ Zsh completion file not found (optional)"], ?_⟩
        simp only [zshCompletionPart, hz, ho, Bool.false_eq_true, if_false, if_true]
        rw [h1]
        simp [Res.bind, hzf, print_colored, addEv]
      · refine ⟨{ fsZ with files := insertUniq fsZ.files (omzCompDir ++ "/_pyker") },
          [.mkdirCall omzCompDir,
           .copyFile "completions/_pyker" (omzCompDir ++ "/_pyker"),
           .print "✓ Zsh completion installed"], ?_⟩
        simp only [zshCompletionPart, hz, ho, Bool.false_eq_true, if_false, if_true]
        rw [h1]
        simp [Res.bind, hzf, hc "completions/_pyker", print_colored, addEv]

/-- With no failing filesystem operation the whole shell-integration
step returns normally; its trace starts with its banner and the bash
completion directory creation. -/
theorem setup_completions_tr (env : Env) (s : St)
    (hm : ∀ p, env.mkdirFails p = false) (hc : ∀ p, env.copyFails p = false)
    (hr : ∀ p, env.readFails p = false) (hw : ∀ p, env.writeFails p = false) :
    ∃ fsX l, setup_completions env s = .ok () ⟨fsX,
      s.evs ++ (Event.print "Setting up shell completions..." ::
        Event.mkdirCall bashCompDir :: l)⟩ := by
  obtain ⟨fsB, h1, -, -, -, -, -⟩ :=
    mkdirp_tr env ["~/.local", "~/.local/share", "~/.local/share/bash-completion"]
      bashCompDir (print_colored "Setting up shell completions..." s) (hm _)
  unfold setup_completions
  simp only []
  rw [h1]
  simp only [Res.bind]
  rcases hb : env.bashCompSrcExists with _ | _
  · simp only [Bool.false_eq_true, if_false, Res.bind]
    obtain ⟨fsX, l, hzp⟩ := zshCompletionPart_tr env
      (print_colored "⚠ Bash completion file not found (optional)"
        ⟨fsB, (print_colored "Setting up shell completions..." s).evs ++
          [.mkdirCall bashCompDir]⟩) hm hc hr hw
    refine ⟨fsX, [.print "⚠ Bash completion file not found (optional)"] ++ l, ?_⟩
    exact hzp.trans (by simp [print_colored, addEv])
  · simp only [if_true, hc "completions/pyker-completion.bash", Bool.false_eq_true, if_false,
      Res.bind]
    obtain ⟨fsX, l, hzp⟩ := zshCompletionPart_tr env
      (print_colored "✓ Bash completion installed"
        { addEv (.copyFile "completions/pyker-completion.bash"
            "~/.local/share/bash-completion/completions/pyker")
            ⟨fsB, (print_colored "Setting up shell completions..." s).evs ++
              [.mkdirCall bashCompDir]⟩ with
          fs := { fsB with files := (insertUniq fsB.files
            "~/.local/share/bash-completion/completions/pyker") } }) hm hc hr hw
    refine ⟨fsX, [.copyFile "completions/pyker-completion.bash"
        "~/.local/share/bash-completion/completions/pyker",
      .print "✓ Bash completion installed"] ++ l, ?_⟩
    exact hzp.trans (by simp [print_colored, addEv])

/-- The startup-file registration step never touches the directory set
or the installed files. -/
theorem zshrcRegisterStep_fs {env : Env} {d : String} {s : St} {b : Unit} {s' : St}
    (h : zshrcRegisterStep env d s = .ok b s') :
    s'.fs.dirs = s.fs.dirs ∧ s'.fs.files = s.fs.files := by
  simp only [zshrcRegisterStep, addEv, print_colored] at h
  split at h
  · cases h; exact ⟨rfl, rfl⟩
  · split at h
    · simp at h
    · split at h
      · cases h; exact ⟨rfl, rfl⟩
      · split at h
        · simp at h
        · cases h; exact ⟨rfl, rfl⟩

/-- C7: when psutil is already importable, `install_psutil` prints its
banner and the already-installed notice, returns success with the
filesystem untouched, and performs zero subprocess invocations (any
subprocess event in the outcome was already in the incoming trace). -/
theorem install_psutil_importable_no_subprocess (env : Env) (s : St)
    (h : env.psutilImportable = true) :
    install_psutil env s =
      .ok () (print_colored "✓ psutil is already installed"
        (print_colored "Installing psutil dependency..." s)) ∧
    (∀ cmd, Event.subproc cmd ∈ (install_psutil env s).events →
      Event.subproc cmd ∈ s.evs) := by
  constructor
  · simp [install_psutil, h]
  · intro cmd hc
    simp [install_psutil, h, Res.events, print_colored, addEv] at hc
    exact hc

/-- Witness for C7 at a concrete run. -/
theorem install_psutil_importable_no_subprocess_witness :
    install_psutil baseEnv initSt =
      .ok () (print_colored "✓ psutil is already installed"
        (print_colored "Installing psutil dependency..." initSt)) ∧
    (∀ cmd, Event.subproc cmd ∈ (install_psutil baseEnv initSt).events →
      Event.subproc cmd ∈ initSt.evs) :=
  install_psutil_importable_no_subprocess baseEnv initSt rfl

/-- C2: the claimed behaviour of the user-scoped pip strategy (judge by
exit status, on failure fall through to the next strategy) is not what
the code does.  The call at lines 55-57 passes both `capture_output=True`
and `stderr=subprocess.DEVNULL` to `subprocess.run`, which raises
`ValueError` before spawning anything; the surrounding
`except subprocess.CalledProcessError` does not catch it, so whenever
psutil is not importable the resolver aborts with an uncaught exception
and pip is never even invoked. -/
theorem install_psutil_pip_raises_valueerror (env : Env) (s : St)
    (h : env.psutilImportable = false) :
    install_psutil env s =
      .raised "ValueError" (print_colored "Installing psutil dependency..." s) ∧
    (∀ cmd, Event.subproc cmd ∈ (install_psutil env s).events →
      Event.subproc cmd ∈ s.evs) := by
  constructor
  · simp [install_psutil, h, subprocessRun]
  · intro cmd hc
    simp [install_psutil, h, subprocessRun, Res.events, print_colored, addEv] at hc
    exact hc

/-- Witness for C2 at a concrete run with psutil not importable. -/
theorem install_psutil_pip_raises_valueerror_witness :
    install_psutil noPsutilEnv initSt =
      .raised "ValueError" (print_colored "Installing psutil dependency..." initSt) ∧
    (∀ cmd, Event.subproc cmd ∈ (install_psutil noPsutilEnv initSt).events →
      Event.subproc cmd ∈ initSt.evs) :=
  install_psutil_pip_raises_valueerror noPsutilEnv initSt rfl

/-- C1: with psutil not importable and no package manager or isolated
installer available on the search path, the resolver never reaches its
exhaustion remediation path: it aborts at the pip step with the uncaught
`ValueError` and prints none of the remediation command lines.
Moreover, the remediation block in the source enumerates six commands -
the four system package managers plus pipx plus the virtual-environment
fallback - not four plus the fallback. -/
theorem psutil_exhaustion_unreachable :
    install_psutil noPsutilEnv initSt =
      .raised "ValueError" (print_colored "Installing psutil dependency..." initSt) ∧
    (∀ m ∈ remediationCmds, Event.print m ∉ (install_psutil noPsutilEnv initSt).events) ∧
    (install_psutil noPsutilEnv initSt).exitCode = none ∧
    remediationCmds.length = 6 ∧
    "  pipx install psutil                 # Using pipx" ∈ remediationCmds := by
  refine ⟨by decide, ?_, by decide, by decide, by decide⟩
  intro m hm
  simp only [remediationCmds, List.mem_cons, List.not_mem_nil, or_false] at hm
  rcases hm with rfl | rfl | rfl | rfl | rfl | rfl <;> decide

/-- C5: with the payload absent `install_pyker` prints the two error
lines and exits 1 before `setup_local_bin` runs: the filesystem is
returned untouched and no mkdir call is added to the trace; and under
the same conditions (earlier fatal steps passing) the whole
orchestration exits with code 1 and an untouched filesystem. -/
theorem install_pyker_missing_payload (env : Env) (s : St)
    (h0 : env.euid ≠ 0) (hv : versionBelow36 env.pyMajor env.pyMinor = false)
    (hp : env.psutilImportable = true) (h : env.payloadExists = false) :
    install_pyker env s =
      .exited 1 (print_colored "Please run this script from the pyker directory"
        (print_colored "Error: pyker.py not found in current directory"
          (print_colored "Installing Pyker..." s))) ∧
    (install_pyker env s).fsOf = s.fs ∧
    (∀ p, Event.mkdirCall p ∈ (install_pyker env s).events → Event.mkdirCall p ∈ s.evs) ∧
    (main env s).exitCode = some 1 ∧
    (main env s).fsOf = s.fs := by
  refine ⟨?_, ?_, ?_, ?_, ?_⟩
  · simp [install_pyker, h]
  · simp [install_pyker, h, Res.fsOf, print_colored, addEv]
  · intro p hp'
    simp [install_pyker, h, Res.events, print_colored, addEv] at hp'
    exact hp'
  · simp [main, check_not_root, check_python, install_psutil, install_pyker,
      h0, hv, hp, h, Res.bind, Res.exitCode, print_colored, addEv]
  · simp [main, check_not_root, check_python, install_psutil, install_pyker,
      h0, hv, hp, h, Res.bind, Res.fsOf, print_colored, addEv]

/-- Witness for C5 at a concrete run missing the payload. -/
theorem install_pyker_missing_payload_witness :
    install_pyker noPayloadEnv initSt =
      .exited 1 (print_colored "Please run this script from the pyker directory"
        (print_colored "Error: pyker.py not found in current directory"
          (print_colored "Installing Pyker..." initSt))) ∧
    (install_pyker noPayloadEnv initSt).fsOf = initSt.fs ∧
    (∀ p, Event.mkdirCall p ∈ (install_pyker noPayloadEnv initSt).events →
      Event.mkdirCall p ∈ initSt.evs) ∧
    (main noPayloadEnv initSt).exitCode = some 1 ∧
    (main noPayloadEnv initSt).fsOf = initSt.fs :=
  install_pyker_missing_payload noPayloadEnv initSt (by decide) rfl rfl rfl

/-- C8: re-running the provisioning functions on an already-provisioned
target is a no-op success for both: the filesystem (in particular the
directory set) is returned unchanged, no error is raised, and only the
mkdir-call and notice events are appended to the trace. -/
theorem provisioner_idempotent (env : Env) (s : St)
    (hb : localBinDir ∈ s.fs.dirs) (hl : pykerLogsDir ∈ s.fs.dirs) :
    setup_local_bin env s =
      .ok localBinDir { s with evs := s.evs ++ [.mkdirCall localBinDir,
        .print "✓ ~/.local/bin directory ready"] } ∧
    create_pyker_dir env s =
      .ok () { s with evs := s.evs ++ [.mkdirCall pykerLogsDir,
        .print "✓ ~/.pyker directory structure created"] } := by
  constructor
  · simp [setup_local_bin, mkdirp, hb, Res.bind, print_colored, addEv]
  · simp [create_pyker_dir, mkdirp, hl, Res.bind, print_colored, addEv]

/-- Witness for C8 at an already-provisioned concrete state. -/
theorem provisioner_idempotent_witness :
    setup_local_bin baseEnv provSt =
      .ok localBinDir { provSt with evs := provSt.evs ++ [.mkdirCall localBinDir,
        .print "✓ ~/.local/bin directory ready"] } ∧
    create_pyker_dir baseEnv provSt =
      .ok () { provSt with evs := provSt.evs ++ [.mkdirCall pykerLogsDir,
        .print "✓ ~/.pyker directory structure created"] } :=
  provisioner_idempotent baseEnv provSt (by decide) (by decide)

/-- C6: the startup-file registration step appends only when the
completion directory string is absent from the file contents, and over
repeated runs the startup file gains the registration line at most
once: after any successful run, running the step again succeeds and
leaves the startup-file contents exactly as they were. -/
theorem zshrc_register_idempotent (env : Env) (dir : String) (s s' : St)
    (hr : env.readFails zshrcPath = false) (hw : env.writeFails zshrcPath = false)
    (h : zshrcRegisterStep env dir s = .ok () s') :
    (∀ c, s.fs.zshrc = some c → isSubOf dir.data c = true → s'.fs.zshrc = s.fs.zshrc) ∧
    (∃ s'', zshrcRegisterStep env dir s' = .ok () s'' ∧ s''.fs.zshrc = s'.fs.zshrc) := by
  rcases hz : s.fs.zshrc with _ | content
  · rw [zshrcRegisterStep_none env dir s hz] at h
    injection h with _ h2
    subst h2
    exact ⟨fun c hc _ => Option.noConfusion hc,
      ⟨s, zshrcRegisterStep_none env dir s hz, rfl⟩⟩
  · rcases hsub : isSubOf dir.data content with _ | _
    · rw [zshrcRegisterStep_absent env dir s content hr hw hz hsub] at h
      injection h with _ h2
      subst h2
      constructor
      · intro c hc hsub'
        injection hc with hc
        subst hc
        rw [hsub] at hsub'
        exact Bool.noConfusion hsub'
      · refine ⟨_, zshrcRegisterStep_after_append env dir _ content hr ?_, rfl⟩
        simp [print_colored, addEv]
    · rw [zshrcRegisterStep_present env dir s content hr hz hsub] at h
      injection h with _ h2
      subst h2
      constructor
      · intro c hc _
        simp [addEv, hz]
      · refine ⟨_, zshrcRegisterStep_present env dir _ content hr ?_ hsub, rfl⟩
        simp [addEv, hz]

/-- Witness for C6: a run on a state without a startup file. -/
theorem zshrc_register_idempotent_witness :
    (∀ c, initSt.fs.zshrc = some c → isSubOf zshSiteFnDir.data c = true →
      initSt.fs.zshrc = initSt.fs.zshrc) ∧
    (∃ s'', zshrcRegisterStep baseEnv zshSiteFnDir initSt = .ok () s'' ∧
      s''.fs.zshrc = initSt.fs.zshrc) :=
  zshrc_register_idempotent baseEnv zshSiteFnDir initSt initSt rfl rfl rfl

/-- C3 counterexample: in a fully successful concrete run the payload
copy (position 8 of the trace) happens before the data/log directory
provisioning (position 11), so the claim that every
directory-provisioning action precedes the payload copy is false on the
code. -/
theorem main_order_counterexample :
    (Res.events (main baseEnv initSt)).indexOf (Event.copyFile "pyker.py" pykerTarget) <
      (Res.events (main baseEnv initSt)).indexOf (Event.mkdirCall pykerLogsDir) ∧
    (Res.events (main baseEnv initSt)).indexOf (Event.mkdirCall pykerLogsDir) <
      (Res.events (main baseEnv initSt)).length := by
  decide

/-- C3 amended: the orchestration order is Privilege Guard, Runtime
Check, Dependency Resolver, binary-directory provisioning, payload
copy, data/log directory provisioning, Shell Integration Installer,
Environment Verifier, summary: the binary directory is created before
the payload copy, but the data and log directories are provisioned only
after the payload is installed. -/
theorem main_step_order (env : Env)
    (h0 : env.euid ≠ 0) (hv : versionBelow36 env.pyMajor env.pyMinor = false)
    (hp : env.psutilImportable = true) (hpay : env.payloadExists = true)
    (hm : ∀ p, env.mkdirFails p = false) (hc : ∀ p, env.copyFails p = false)
    (hr : ∀ p, env.readFails p = false) (hw : ∀ p, env.writeFails p = false)
    (hpath : isSubOf localBinDir.data env.pathEnv = true) :
    List.Sublist
      [Event.print "✓ Python 3 is available",
       Event.print "✓ psutil is already installed",
       Event.mkdirCall localBinDir,
       Event.copyFile "pyker.py" pykerTarget,
       Event.mkdirCall pykerLogsDir,
       Event.print "Setting up shell completions...",
       Event.print "✓ ~/.local/bin is already in PATH",
       Event.print "🎉 Installation completed!"]
      (Res.events (main env initSt)) := by
  unfold main
  simp only []
  rw [check_not_root_ok env _ h0]
  simp only [Res.bind]
  rw [check_python_ok env _ hv]
  simp only [Res.bind]
  rw [install_psutil_already env _ hp]
  simp only [Res.bind]
  obtain ⟨fs5, h5⟩ := install_pyker_tr env _ hpay hm hc
  rw [h5]
  simp only [Res.bind]
  obtain ⟨fs6, h6⟩ := create_pyker_dir_tr env _ hm
  rw [h6]
  simp only [Res.bind]
  obtain ⟨fs7, l7, h7⟩ := setup_completions_tr env _ hm hc hr hw
  rw [h7]
  simp only [Res.bind]
  rw [check_path_in env localBinDir _ hpath]
  simp only [Res.bind, if_true]
  simp only [Res.events, summaryPrints, print_colored, addEv, initSt, List.append_assoc,
    List.cons_append, List.nil_append, List.singleton_append]
  refine List.Sublist.cons _ ?_
  refine List.Sublist.cons _ ?_
  refine List.Sublist.cons₂ _ ?_
  refine List.Sublist.cons _ ?_
  refine List.Sublist.cons₂ _ ?_
  refine List.Sublist.cons _ ?_
  refine List.Sublist.cons₂ _ ?_
  refine List.Sublist.cons _ ?_
  refine List.Sublist.cons₂ _ ?_
  refine List.Sublist.cons _ ?_
  refine List.Sublist.cons _ ?_
  refine List.Sublist.cons₂ _ ?_
  refine List.Sublist.cons _ ?_
  refine List.Sublist.cons₂ _ ?_
  refine List.Sublist.cons _ ?_
  refine List.Sublist.trans ?_ (List.sublist_append_right l7 _)
  decide

/-- Witness for the amended C3 order at a concrete environment. -/
theorem main_step_order_witness :
    List.Sublist
      [Event.print "✓ Python 3 is available",
       Event.print "✓ psutil is already installed",
       Event.mkdirCall localBinDir,
       Event.copyFile "pyker.py" pykerTarget,
       Event.mkdirCall pykerLogsDir,
       Event.print "Setting up shell completions...",
       Event.print "✓ ~/.local/bin is already in PATH",
       Event.print "🎉 Installation completed!"]
      (Res.events (main baseEnv initSt)) :=
  main_step_order baseEnv (by decide) rfl rfl rfl (fun _ => rfl) (fun _ => rfl)
    (fun _ => rfl) (fun _ => rfl) (by decide)

/-- The zsh half never removes a directory. -/
theorem zshCompletionPart_dirs_mono {env : Env} {s s' : St} {b : Unit}
    (h : zshCompletionPart env s = .ok b s') :
    ∀ q, q ∈ s.fs.dirs → q ∈ s'.fs.dirs := by
  intro q hq
  unfold zshCompletionPart at h
  simp only [] at h
  rcases hz : env.which "zsh" with _ | _
  · simp only [hz, Bool.false_eq_true, if_false] at h
    cases h
    exact hq
  · simp only [hz, if_true] at h
    obtain ⟨a, s1, hmk, hf⟩ := bind_eq_ok h
    have hq1 : q ∈ s1.fs.dirs := (mkdirp_ok_dirs hmk).2.1 q hq
    rcases hzf : env.zshCompSrcExists with _ | _
    · simp only [hzf, Bool.false_eq_true, if_false] at hf
      cases hf
      simpa [print_colored, addEv] using hq1
    · simp only [hzf, if_true] at hf
      rcases hcf : env.copyFails "completions/_pyker" with _ | _
      · simp only [hcf, Bool.false_eq_true, if_false] at hf
        rcases ho : env.ohMyZshExists with _ | _
        · simp only [ho, Bool.false_eq_true, if_false] at hf
          have hfs := zshrcRegisterStep_fs hf
          rw [hfs.1]
          simpa [print_colored, addEv] using hq1
        · simp only [ho, if_true] at hf
          cases hf
          simpa [print_colored, addEv] using hq1
      · simp only [hcf, if_true] at hf
        simp at hf

/-- C4 counterexample: when creating the bash completion directory
fails, `setup_completions` raises an uncaught `OSError` (there is no
exception handling anywhere in the function), and the whole
orchestration aborts with that exception: the Shell Integration
Installer can abort the orchestration. -/
theorem setup_completions_abort_counterexample :
    setup_completions bashMkdirFailEnv initSt =
      .raised "OSError" (addEv (.mkdirCall bashCompDir)
        (print_colored "Setting up shell completions..." initSt)) ∧
    (main bashMkdirFailEnv initSt).excName = some "OSError" := by
  constructor
  · decide
  · decide

/-- C4 amended: a merely missing completion source file never aborts the
step — with no failing directory-creation, copy, or startup-file
operation `setup_completions` returns normally whatever completion
files or shells are present or absent; but a directory-creation, copy,
or startup-file failure raises an uncaught exception that aborts the
orchestration. -/
theorem setup_completions_no_abort (env : Env) (s : St)
    (hm : ∀ p, env.mkdirFails p = false) (hc : ∀ p, env.copyFails p = false)
    (hr : ∀ p, env.readFails p = false) (hw : ∀ p, env.writeFails p = false) :
    ∃ s', setup_completions env s = .ok () s' := by
  obtain ⟨fsX, l, hh⟩ := setup_completions_tr env s hm hc hr hw
  exact ⟨_, hh⟩

/-- Witness for the amended C4 at a concrete run. -/
theorem setup_completions_no_abort_witness :
    ∃ s', setup_completions baseEnv initSt = .ok () s' :=
  setup_completions_no_abort baseEnv initSt (fun _ => rfl) (fun _ => rfl) (fun _ => rfl)
    (fun _ => rfl)

/-- C9: whenever the shell-integration step returns normally, the bash
completion directory exists afterwards, whether or not any completion
source file was present or copied. -/
theorem setup_completions_bash_dir (env : Env) (s s' : St)
    (h : setup_completions env s = .ok () s') :
    bashCompDir ∈ s'.fs.dirs := by
  unfold setup_completions at h
  simp only [] at h
  obtain ⟨a1, s1, hmk, hf⟩ := bind_eq_ok h
  have hmem : bashCompDir ∈ s1.fs.dirs := (mkdirp_ok_dirs hmk).1
  obtain ⟨a2, s2, hbash, hzsh⟩ := bind_eq_ok hf
  have hmem2 : bashCompDir ∈ s2.fs.dirs := by
    rcases hb : env.bashCompSrcExists with _ | _
    · simp only [hb, Bool.false_eq_true, if_false] at hbash
      cases hbash
      simpa [print_colored, addEv] using hmem
    · simp only [hb, if_true] at hbash
      rcases hcf : env.copyFails "completions/pyker-completion.bash" with _ | _
      · simp only [hcf, Bool.false_eq_true, if_false] at hbash
        cases hbash
        simpa [print_colored, addEv] using hmem
      · simp only [hcf, if_true] at hbash
        simp at hbash
  exact zshCompletionPart_dirs_mono hzsh bashCompDir hmem2

/-- Witness for C9 at a concrete run without completion files. -/
theorem setup_completions_bash_dir_witness : bashCompDir ∈ compSt.fs.dirs :=
  setup_completions_bash_dir baseEnv initSt compSt (by decide)

/-- C10: when the zsh executable is not on the search path the
shell-integration step performs no zsh-related action at all: the
startup file is unchanged, neither candidate zsh completion directory
is created, and every event the step adds to the trace is one of the
five bash-side events (its banner, the bash directory creation, the
bash copy, and the two bash notices) — in particular no startup-file
read or append, no zsh completion copy, and no zsh notice occurs. -/
theorem setup_completions_no_zsh (env : Env) (s s' : St)
    (hz : env.which "zsh" = false)
    (h : setup_completions env s = .ok () s') :
    s'.fs.zshrc = s.fs.zshrc ∧
    (omzCompDir ∉ s.fs.dirs → omzCompDir ∉ s'.fs.dirs) ∧
    (zshSiteFnDir ∉ s.fs.dirs → zshSiteFnDir ∉ s'.fs.dirs) ∧
    ∃ tail, s'.evs = s.evs ++ tail ∧ ∀ e ∈ tail,
      e ∈ [Event.print "Setting up shell completions...", Event.mkdirCall bashCompDir,
        Event.copyFile "completions/pyker-completion.bash"
          "~/.local/share/bash-completion/completions/pyker",
        Event.print "✓ Bash completion installed",
        Event.print "⚠ Bash completion file not found (optional)"] := by
  unfold setup_completions at h
  simp only [] at h
  obtain ⟨a1, s1, hmk, hf⟩ := bind_eq_ok h
  have hmkd := mkdirp_ok_dirs hmk
  have hmke := mkdirp_ok_evs hmk
  have hmkz := mkdirp_ok_zshrc hmk
  obtain ⟨a2, s2, hbash, hzsh⟩ := bind_eq_ok hf
  rw [zshCompletionPart_skip env s2 hz] at hzsh
  cases hzsh
  have hdirs : ∀ q, q ∈ s1.fs.dirs → q ∈ s.fs.dirs ∨
      q ∈ ["~/.local", "~/.local/share", "~/.local/share/bash-completion"] ∨
      q = bashCompDir := by
    intro q hq
    rcases hmkd.2.2 q hq with h1 | h2 | h3
    · left
      simpa [print_colored, addEv] using h1
    · right; left; exact h2
    · right; right; exact h3
  rcases hb : env.bashCompSrcExists with _ | _
  · simp only [hb, Bool.false_eq_true, if_false] at hbash
    cases hbash
    refine ⟨by simp [hmkz], ?_, ?_, ?_⟩
    · intro hnot hmem
      simp only [print_colored_fs, addEv_fs] at hmem
      rcases hdirs _ hmem with h1 | h2 | h3
      · exact hnot h1
      · exact absurd h2 (by decide)
      · exact absurd h3 (by decide)
    · intro hnot hmem
      simp only [print_colored_fs, addEv_fs] at hmem
      rcases hdirs _ hmem with h1 | h2 | h3
      · exact hnot h1
      · exact absurd h2 (by decide)
      · exact absurd h3 (by decide)
    · refine ⟨[.print "Setting up shell completions...", .mkdirCall bashCompDir,
        .print "⚠ Bash completion file not found (optional)"], ?_, by decide⟩
      simp [print_colored, addEv, hmke]
  · simp only [hb, if_true] at hbash
    rcases hcf : env.copyFails "completions/pyker-completion.bash" with _ | _
    · simp only [hcf, Bool.false_eq_true, if_false] at hbash
      cases hbash
      refine ⟨by simp [hmkz], ?_, ?_, ?_⟩
      · intro hnot hmem
        simp only [print_colored_fs, addEv_fs] at hmem
        rcases hdirs _ hmem with h1 | h2 | h3
        · exact hnot h1
        · exact absurd h2 (by decide)
        · exact absurd h3 (by decide)
      · intro hnot hmem
        simp only [print_colored_fs, addEv_fs] at hmem
        rcases hdirs _ hmem with h1 | h2 | h3
        · exact hnot h1
        · exact absurd h2 (by decide)
        · exact absurd h3 (by decide)
      · refine ⟨[.print "Setting up shell completions...", .mkdirCall bashCompDir,
          .copyFile "completions/pyker-completion.bash"
            "~/.local/share/bash-completion/completions/pyker",
          .print "✓ Bash completion installed"], ?_, by decide⟩
        simp [print_colored, addEv, hmke]
    · simp only [hcf, if_true] at hbash
      simp at hbash

/-- Witness for C10 at a concrete run without zsh. -/
theorem setup_completions_no_zsh_witness :
    compSt.fs.zshrc = initSt.fs.zshrc ∧
    (omzCompDir ∉ initSt.fs.dirs → omzCompDir ∉ compSt.fs.dirs) ∧
    (zshSiteFnDir ∉ initSt.fs.dirs → zshSiteFnDir ∉ compSt.fs.dirs) ∧
    ∃ tail, compSt.evs = initSt.evs ++ tail ∧ ∀ e ∈ tail,
      e ∈ [Event.print "Setting up shell completions...", Event.mkdirCall bashCompDir,
        Event.copyFile "completions/pyker-completion.bash"
          "~/.local/share/bash-completion/completions/pyker",
        Event.print "✓ Bash completion installed",
        Event.print "⚠ Bash completion file not found (optional)"] :=
  setup_completions_no_zsh baseEnv initSt compSt rfl (by decide)

end PykerInstall
